import Mathlib

/-!
# Shallow embedding of the Ecommerce-Backend controllers

This file embeds the controller methods of the repository
(`src/controllers/shoppingCart.controller.js`, `src/controllers/product.controller.js`,
`src/controllers/customer.controller.js`) as pure Lean functions over an explicit
database state, and proves or refutes the specification claims about them.

Conventions of the embedding:
* The relational database is a record of lists of rows (one list per table).
* Sequelize calls are embedded by their effect on those lists:
  `findAll {where}` is `List.filter`, `findOne {where}` is `List.find?`,
  `destroy {where}` removes the matching rows and reports how many were removed,
  `upsert` updates the row matching the table's uniqueness constraint or inserts
  a fresh row, `count` is `List.length`, `findByPk` is `find?` on the primary key.
* JS truthiness on the decoded `customer_id` is embedded as `≠ 0`
  (`0`, `null` and `undefined` are falsy; any real id is truthy).
* Query-string parameters (`page`, `limit`) are embedded as `Option Int`
  (`none` = parameter absent); `Number(undefined) = NaN` is embedded as a
  `none` result of the offset computation.
* HTTP responses are embedded as status codes (`Nat`) plus the relevant payload.
* `bcrypt` hashing and token issuance are opaque external capabilities; hashing
  is embedded as an injective tagging function `bcryptHash`.
-/

namespace Ecommerce

/-- A row of the `shopping_cart` table:
`(item_id, cart_id, product_id, attributes, quantity, added_on)`. -/
structure CartRow where
  item_id : Nat
  cart_id : String
  product_id : Nat
  attributes : String
  quantity : Int
  added_on : Nat
deriving Repr, DecidableEq

/-- A row of the `product` table (the fields the controllers read). -/
structure ProductRow where
  product_id : Nat
  name : String
  description : String
  price : Int
  discounted_price : Int
  image : String
  thumbnail : String
deriving Repr, DecidableEq

/-- A row of the `order` table as written by `createOrder`
(`Order.upsert` supplies only `customer_id`, `cart_id`, `shipping_id`, `tax_id`;
`total_amount` is left unset, embedded as `Option Int`). -/
structure OrderRow where
  order_id : Nat
  customer_id : Nat
  cart_id : String
  shipping_id : Nat
  tax_id : Nat
  total_amount : Option Int
deriving Repr, DecidableEq

/-- A row of the `order_detail` table (an order line-item snapshot). -/
structure OrderDetailRow where
  item_id : Nat
  order_id : Nat
  product_id : Nat
  attributes : String
  product_name : String
  quantity : Int
  unit_cost : Int
deriving Repr, DecidableEq

/-- A row of the `customer` table (the fields the controllers read/write). -/
structure CustomerRow where
  customer_id : Nat
  name : String
  email : String
  password : String
deriving Repr, DecidableEq

/-- A row of the `review` table. -/
structure ReviewRow where
  review_id : Nat
  customer_id : Nat
  product_id : Nat
  review : String
  rating : Int
  created_on : Nat
deriving Repr, DecidableEq

/-- The database state: one list of rows per table. -/
structure DB where
  shoppingCarts : List CartRow
  products : List ProductRow
  orders : List OrderRow
  orderDetails : List OrderDetailRow
  customers : List CustomerRow
  reviews : List ReviewRow
deriving Repr, DecidableEq

/-- The empty database. -/
def DB.empty : DB := ⟨[], [], [], [], [], []⟩

/-! ## Shopping cart controller -/

/-- `cart_id.substring(10)` from `addItemToCart`: the string with its first
10 characters removed. -/
def substr10 (s : String) : String := String.mk (s.data.drop 10)

/-- Fresh autoincrement `item_id` for an insert into `shopping_cart`. -/
def freshItemId (rows : List CartRow) : Nat :=
  rows.foldl (fun m r => max m r.item_id) 0 + 1

/-- Fresh `added_on` timestamp for an insert into `shopping_cart`: strictly
later than every timestamp already in the table. -/
def freshTime (rows : List CartRow) : Nat :=
  rows.foldl (fun m r => max m r.added_on) 0 + 1

/-- `ShoppingCart.upsert {cart_id, product_id, attributes, quantity}`.
Modelled from the spec: the `ShoppingCart` Sequelize model itself lives in
`src/database/models`, which is not included; per the spec's glossary
("Upsert: insert-or-update keyed by a uniqueness constraint") and §3
("at most one row per `(cart_id, product_id)`"), the upsert is keyed on
`(cart_id, product_id)`. Sequelize upsert sets the supplied fields on the
matched row (it does not add to them); an insert gets a fresh `item_id` and
a fresh `added_on`, an update keeps both. -/
def upsertCart (rows : List CartRow) (tc : String) (pid : Nat) (attrs : String)
    (q : Int) (newId newTime : Nat) : List CartRow :=
  if rows.any (fun r => r.cart_id == tc && r.product_id == pid) then
    rows.map (fun r =>
      if r.cart_id == tc && r.product_id == pid then
        { r with attributes := attrs, quantity := q }
      else r)
  else
    rows ++ [⟨newId, tc, pid, attrs, q, newTime⟩]

/-- `ShoppingCart.findOne {where: {product_id}, order: [['added_on','DESC']]}`:
the row with the latest `added_on` among all rows (of every cart) with the
given `product_id`. -/
def latestByProduct (rows : List CartRow) (pid : Nat) : Option CartRow :=
  match rows with
  | [] => none
  | r :: rs =>
    match latestByProduct rs pid with
    | none => if r.product_id == pid then some r else none
    | some b =>
      if r.product_id == pid then
        if b.added_on < r.added_on then some r else some b
      else some b

/-- `ShoppingCartController.addItemToCart`: decodes the bearer token; if the
`customer_id` is truthy, upserts
`{cart_id: cart_id.substring(10), product_id, attributes, quantity}` and
responds 201 with the most recently added row for `product_id`;
otherwise responds 400 (embedded as `none`). -/
def addItemToCart (db : DB) (customerId : Nat) (cart_id : String)
    (product_id : Nat) (attributes : String) (quantity : Int) :
    DB × Option CartRow :=
  if customerId ≠ 0 then
    let rows := upsertCart db.shoppingCarts (substr10 cart_id) product_id
      attributes quantity (freshItemId db.shoppingCarts) (freshTime db.shoppingCarts)
    let db' := { db with shoppingCarts := rows }
    (db', latestByProduct rows product_id)
  else
    (db, none)

/-- One entry of the `getCart` response: a cart row joined with its product,
with `subtotal = quantity * price`. -/
structure CartItemView where
  item_id : Nat
  cart_id : String
  name : String
  attributes : String
  product_id : Nat
  image : String
  price : Int
  discounted_price : Int
  quantity : Int
  subtotal : Int
deriving Repr, DecidableEq

/-- The join + projection `getCart` applies to one cart row. -/
def viewCartRow (products : List ProductRow) (r : CartRow) : Option CartItemView :=
  (products.find? (fun p => p.product_id == r.product_id)).map fun p =>
    { item_id := r.item_id
      cart_id := r.cart_id
      name := p.name
      attributes := r.attributes
      product_id := r.product_id
      image := p.image
      price := p.price
      discounted_price := p.discounted_price
      quantity := r.quantity
      subtotal := r.quantity * p.price }

/-- `ShoppingCartController.getCart`: with a truthy `customer_id`, returns the
rows of the cart joined with their products (status 200); with a falsy one the
query is skipped and the response is 404, embedded as `none`. -/
def getCart (db : DB) (customerId : Nat) (cart_id : String) :
    Option (List CartItemView) :=
  if customerId ≠ 0 then
    some (((db.shoppingCarts.filter (fun r => r.cart_id == cart_id)).filterMap
      (viewCartRow db.products)))
  else
    none

/-- `ShoppingCartController.removeItemFromCart`: with a truthy `customer_id`,
`ShoppingCart.destroy {where: {item_id}}`; responds 200 when the number of
destroyed rows is truthy (nonzero) and 400 otherwise. -/
def removeItemFromCart (db : DB) (customerId : Nat) (item_id : Nat) : DB × Nat :=
  if customerId ≠ 0 then
    let destroyed := (db.shoppingCarts.filter (fun r => r.item_id == item_id)).length
    let db' := { db with
      shoppingCarts := db.shoppingCarts.filter (fun r => !(r.item_id == item_id)) }
    if destroyed ≠ 0 then (db', 200) else (db', 400)
  else
    (db, 400)

/-- `ShoppingCartController.emptyCart`: with a truthy `customer_id`,
`ShoppingCart.destroy {where: {cart_id}}`; responds 200 with `[]` when the
number of destroyed rows is truthy (nonzero) and 400 otherwise. -/
def emptyCart (db : DB) (customerId : Nat) (cart_id : String) : DB × Nat :=
  if customerId ≠ 0 then
    let destroyed := (db.shoppingCarts.filter (fun r => r.cart_id == cart_id)).length
    let db' := { db with
      shoppingCarts := db.shoppingCarts.filter (fun r => !(r.cart_id == cart_id)) }
    if destroyed ≠ 0 then (db', 200) else (db', 400)
  else
    (db, 400)

/-- Fresh autoincrement `order_id` for an insert into `order`. -/
def freshOrderId (rows : List OrderRow) : Nat :=
  rows.foldl (fun m r => max m r.order_id) 0 + 1

/-- `ShoppingCartController.createOrder`:
`Order.upsert {customer_id, cart_id, shipping_id, tax_id}` (no `order_id`
supplied, so a fresh row is inserted; `total_amount` is not set), then
responds 201 with `{order_id: Order.count()}`. It reads no cart rows, writes
no order-detail rows, computes no total and deletes nothing. -/
def createOrder (db : DB) (customerId : Nat) (cart_id : String)
    (shipping_id tax_id : Nat) : DB × Nat :=
  let row : OrderRow :=
    { order_id := freshOrderId db.orders
      customer_id := customerId
      cart_id := cart_id
      shipping_id := shipping_id
      tax_id := tax_id
      total_amount := none }
  let db' := { db with orders := db.orders ++ [row] }
  (db', db'.orders.length)

/-- `ShoppingCartController.getOrderSummary`: `OrderDetail.findByPk(order_id)`
(a lookup on the `order_detail` primary key `item_id`); 200 with the row when
found, 404 otherwise (embedded as `Option`). -/
def getOrderSummary (db : DB) (order_id : Nat) : Option OrderDetailRow :=
  db.orderDetails.find? (fun d => d.item_id == order_id)

/-- A product price mutation: sets `price` and `discounted_price` of the
product with the given id, touching only the `product` table. -/
def updateProductPrice (db : DB) (product_id : Nat) (price discounted_price : Int) :
    DB :=
  { db with products := db.products.map (fun p =>
      if p.product_id == product_id then
        { p with price := price, discounted_price := discounted_price }
      else p) }

/-! ## Product controller: pagination -/

/-- The `page` normalisation shared by the product-controller methods:
`if (!page) page = 1; else if (page < 1) page = 1;`
(`none` embeds an absent query parameter). -/
def clampedPage (page : Option Int) : Int :=
  match page with
  | none => 1
  | some p => if p < 1 then 1 else p

/-- The `limit` defaulting shared by the product-controller methods:
`if (!limit) limit = 20;`. -/
def orDefaultLimit (limit : Option Int) : Int :=
  match limit with
  | none => 20
  | some l => l

/-- `ProductController.getAllProducts` lines 54-71: the page clamp and limit
default run first, then `offset = Number(page) * Number(limit) - Number(limit)`.
Result: the `sqlQueryMap` pair `(offset, limit)`; `none` embeds a `NaN`
offset (unreachable here). -/
def getAllProductsQueryMap (page limit : Option Int) : Option Int × Int :=
  let p := clampedPage page
  let l := orDefaultLimit limit
  (some (p * l - l), l)

/-- `ProductController.searchProduct` lines 116-129: identical order — clamp
and default first, then `offset = Number(page) * Number(limit) - Number(limit)`. -/
def searchProductQueryMap (page limit : Option Int) : Option Int × Int :=
  let p := clampedPage page
  let l := orDefaultLimit limit
  (some (p * l - l), l)

/-- `ProductController.getProductsByCategory` lines 196-205: the offset
`Number(page) * Number(limit) - Number(limit)` is computed from the raw query
parameters BEFORE the page clamp and limit default run; `Number(undefined)`
is `NaN`, embedded as `none`. -/
def getProductsByCategoryQueryMap (page limit : Option Int) : Option Int × Int :=
  let offset : Option Int :=
    match page, limit with
    | some p, some l => some (p * l - l)
    | _, _ => none
  let _p := clampedPage page
  let l := orDefaultLimit limit
  (offset, l)

/-- `ProductController.getProductsByDepartment` lines 252-261: same shape as
`getProductsByCategory` — the offset is computed from the raw parameters
before the clamp and default. -/
def getProductsByDepartmentQueryMap (page limit : Option Int) : Option Int × Int :=
  let offset : Option Int :=
    match page, limit with
    | some p, some l => some (p * l - l)
    | _, _ => none
  let _p := clampedPage page
  let l := orDefaultLimit limit
  (offset, l)

/-! ## Product controller: search -/

/-- `query_string.split(/[ ,]+/).filter(Boolean)`: split on runs of spaces and
commas, dropping empty pieces. Helper walking the character list with an
accumulator for the current word (in reverse). -/
def splitTermsAux : List Char → List Char → List String
  | [], acc => if acc.isEmpty then [] else [String.mk acc.reverse]
  | c :: cs, acc =>
    if c = ' ' || c = ',' then
      if acc.isEmpty then splitTermsAux cs []
      else String.mk acc.reverse :: splitTermsAux cs []
    else splitTermsAux cs (c :: acc)

/-- `query_string.split(/[ ,]+/).filter(Boolean)` from `searchProduct`. -/
def splitTerms (q : String) : List String := splitTermsAux q.data []

/-- Whether `sub` occurs contiguously in `hay`, checking every suffix:
the embedding of SQL `hay LIKE '%sub%'`. -/
def infixCheck (sub : List Char) : List Char → Bool
  | [] => sub.isEmpty
  | c :: cs => sub.isPrefixOf (c :: cs) || infixCheck sub cs

/-- `name LIKE '%sub%'`: `sub` occurs contiguously in `hay`. -/
def containsSub (hay sub : String) : Bool := infixCheck sub.data hay.data

/-- The `where` clause of `searchProduct`: with `all_words === 'off'`, an
`Op.or` of one `Op.like` per term of the split query string; with any other
flag value, a single `Op.like` on the whole `query_string`. -/
def searchMatches (db : DB) (all_words query_string : String) : List ProductRow :=
  if all_words = "off" then
    db.products.filter (fun pr =>
      (splitTerms query_string).any (fun t => containsSub pr.name t))
  else
    db.products.filter (fun pr => containsSub pr.name query_string)

/-- `findAll {where, offset, limit}`: the rows after the where-filter, sliced
by the offset and limit of the query map. -/
def searchProduct (db : DB) (all_words query_string : String)
    (page limit : Option Int) : List ProductRow :=
  let qm := searchProductQueryMap page limit
  let offset := (qm.1.getD 0).toNat
  ((searchMatches db all_words query_string).drop offset).take qm.2.toNat

/-! ## Product controller: reviews -/

/-- Fresh autoincrement `review_id` for an insert into `review`. -/
def freshReviewId (rows : List ReviewRow) : Nat :=
  rows.foldl (fun m r => max m r.review_id) 0 + 1

/-- `ProductController.postProductReview`: looks up the product (404 when
absent); checks for an existing review with `{product_id, customer_id: 1}` —
the literal constant `1`, not the authenticated caller — and responds 409 when
one exists; otherwise `Review.upsert {customer_id: 1, review, rating,
created_on, product_id}` inserts the review under customer `1` and responds
201. The authenticated caller's id is never read by this method. -/
def postProductReview (db : DB) (authCustomerId : Nat) (product_id : Nat)
    (review : String) (rating : Int) (now : Nat) : DB × Nat :=
  if db.products.any (fun p => p.product_id == product_id) then
    match db.reviews.find? (fun r =>
        r.product_id == product_id && r.customer_id == 1) with
    | some _ => (db, 409)
    | none =>
      let row : ReviewRow :=
        { review_id := freshReviewId db.reviews
          customer_id := 1
          product_id := product_id
          review := review
          rating := rating
          created_on := now }
      ({ db with reviews := db.reviews ++ [row] }, 201)
  else
    (db, 404)

/-! ## Customer controller -/

/-- Model of the external capability `bcrypt.hashSync(password, 8)`:
an opaque digest, embedded as an injective tagging of the input. -/
def bcryptHash (password : String) : String := "$2b$08$" ++ password

/-- Model of the external capability `bcrypt.compareSync(password, stored)`:
true exactly when `stored` is the digest of `password`. -/
def bcryptCompare (password stored : String) : Bool := bcryptHash password == stored

/-- Fresh autoincrement `customer_id` for an insert into `customer`. -/
def freshCustomerId (rows : List CustomerRow) : Nat :=
  rows.foldl (fun m r => max m r.customer_id) 0 + 1

/-- `CustomerController.create`: computes `passwordHash = bcrypt.hashSync(
password, 8)` (which the method then never uses), then
`Customer.findOrCreate {where: {email}, defaults: {name, password}}` —
the `defaults` store the raw `password` field. When the email is already
present it responds 409 and creates nothing; otherwise it inserts the row
and responds 201. -/
def createCustomer (db : DB) (name email password : String) : DB × Nat :=
  let _passwordHash := bcryptHash password
  match db.customers.find? (fun c => c.email == email) with
  | some _ => (db, 409)
  | none =>
    let row : CustomerRow :=
      { customer_id := freshCustomerId db.customers
        name := name
        email := email
        password := password }
    ({ db with customers := db.customers ++ [row] }, 201)

/-- `CustomerController.login`: `Customer.findOne {where: {email}}`; when no
customer exists it responds `404 {message: 'User does not exist'}`; when one
exists but `bcrypt.compareSync(password, customer.password)` fails it responds
`401 {message: 'Incorrect password'}`; otherwise 200. The result is the
`(status, message)` pair (the success message embedded as `""`). -/
def login (db : DB) (email password : String) : Nat × String :=
  match db.customers.find? (fun c => c.email == email) with
  | some c =>
    if bcryptCompare password c.password then (200, "")
    else (401, "Incorrect password")
  | none => (404, "User does not exist")

/-! ## Concrete fixtures used by the counterexamples and witnesses -/

/-- A single catalog product with id 7 and price 10. -/
def widgetProduct : ProductRow := ⟨7, "Widget", "a widget", 10, 8, "w.png", "wt.png"⟩

/-- A database holding just the widget product and no cart rows. -/
def cartDB : DB := { DB.empty with products := [widgetProduct] }

/-- The checkout scenario of the spec: cart `"abc123"` with lines
`{product_id: 1, qty: 2, price: 10}` and `{product_id: 2, qty: 1, price: 5}`. -/
def checkoutDB : DB :=
  { DB.empty with
    products := [⟨1, "A", "d", 10, 9, "i", "t"⟩, ⟨2, "B", "d", 5, 4, "i", "t"⟩]
    shoppingCarts := [⟨1, "abc123", 1, "", 2, 1⟩, ⟨2, "abc123", 2, "", 1, 2⟩] }

/-- A catalog with a single product whose name is `"shirt red"`. -/
def searchDB : DB :=
  { DB.empty with products := [⟨1, "shirt red", "d", 5, 4, "i", "t"⟩] }

/-- A database with one registered customer whose stored credential is the
digest of `"secret"`. -/
def loginDB : DB :=
  { DB.empty with customers := [⟨1, "A", "a@x.com", bcryptHash "secret"⟩] }

/-- A database where customer 1 (and nobody else) has already reviewed
product 7. -/
def reviewedDB : DB :=
  { DB.empty with products := [widgetProduct], reviews := [⟨1, 1, 7, "old", 5, 0⟩] }

/-! ## Helper lemmas -/

theorem latestByProduct_eq_none (pid : Nat) :
    ∀ (rows : List CartRow), latestByProduct rows pid = none →
      ∀ r ∈ rows, r.product_id ≠ pid := by
  intro rows
  induction rows with
  | nil => intro _ r hr; cases hr
  | cons r rs ih =>
    intro h r' hr'
    unfold latestByProduct at h
    rcases hlt : latestByProduct rs pid with _ | b
    · rw [hlt] at h
      by_cases hpid : r.product_id == pid
      · simp [hpid] at h
      · rcases List.mem_cons.mp hr' with rfl | hmem
        · exact fun he => hpid (by simp [he])
        · exact ih hlt r' hmem
    · rw [hlt] at h
      by_cases hpid : r.product_id == pid
      · by_cases h2 : b.added_on < r.added_on
        · simp [hpid, h2] at h
        · simp [hpid, h2] at h
      · simp [hpid] at h

theorem latestByProduct_spec (pid : Nat) :
    ∀ (rows : List CartRow) (b : CartRow), latestByProduct rows pid = some b →
      b ∈ rows ∧ b.product_id = pid ∧
        ∀ r ∈ rows, r.product_id = pid → r.added_on ≤ b.added_on := by
  intro rows
  induction rows with
  | nil => intro b h; cases h
  | cons r rs ih =>
    intro b h
    unfold latestByProduct at h
    rcases hlt : latestByProduct rs pid with _ | b'
    · rw [hlt] at h
      by_cases hpid : r.product_id == pid
      · simp [hpid] at h
        subst h
        refine ⟨List.mem_cons_self _ _, by simpa using hpid, ?_⟩
        intro r' hr' _
        rcases List.mem_cons.mp hr' with rfl | hmem
        · exact le_refl _
        · exact absurd (by assumption) (latestByProduct_eq_none pid rs hlt r' hmem)
      · simp [hpid] at h
    · rw [hlt] at h
      obtain ⟨hmem', hpid', hmax'⟩ := ih b' hlt
      by_cases hpid : r.product_id == pid
      · by_cases hlt2 : b'.added_on < r.added_on
        · simp [hpid, hlt2] at h
          subst h
          refine ⟨List.mem_cons_self _ _, by simpa using hpid, ?_⟩
          intro r' hr' hr'pid
          rcases List.mem_cons.mp hr' with rfl | hmem
          · exact le_refl _
          · exact le_trans (hmax' r' hmem hr'pid) (le_of_lt hlt2)
        · simp [hpid, hlt2] at h
          subst h
          refine ⟨List.mem_cons_of_mem _ hmem', hpid', ?_⟩
          intro r' hr' hr'pid
          rcases List.mem_cons.mp hr' with rfl | hmem
          · exact le_of_not_lt hlt2
          · exact hmax' r' hmem hr'pid
      · simp [hpid] at h
        subst h
        refine ⟨List.mem_cons_of_mem _ hmem', hpid', ?_⟩
        intro r' hr' hr'pid
        rcases List.mem_cons.mp hr' with rfl | hmem
        · exact absurd hr'pid (by simpa using hpid)
        · exact hmax' r' hmem hr'pid

theorem mem_upsertCart {rows : List CartRow} {tc : String} {pid : Nat}
    {attrs : String} {q : Int} {i t : Nat} {r : CartRow}
    (h : r ∈ upsertCart rows tc pid attrs q i t) : r ∈ rows ∨ r.cart_id = tc := by
  unfold upsertCart at h
  by_cases hany : rows.any (fun r => r.cart_id == tc && r.product_id == pid)
  · rw [if_pos hany] at h
    obtain ⟨a, ha, hmap⟩ := List.mem_map.mp h
    by_cases hm : a.cart_id == tc && a.product_id == pid
    · right
      rw [if_pos hm] at hmap
      have : a.cart_id = tc := by
        have := (Bool.and_eq_true _ _).mp hm
        simpa using this.1
      rw [← hmap]
      exact this
    · left
      rw [if_neg hm] at hmap
      rw [← hmap]
      exact ha
  · rw [if_neg hany] at h
    rcases List.mem_append.mp h with hmem | hnew
    · exact Or.inl hmem
    · right
      simp at hnew
      rw [hnew]

theorem upsertCart_writes (rows : List CartRow) (tc : String) (pid : Nat)
    (attrs : String) (q : Int) (i t : Nat) :
    (upsertCart rows tc pid attrs q i t).any
      (fun r => r.cart_id == tc && r.product_id == pid) = true := by
  unfold upsertCart
  by_cases hany : rows.any (fun r => r.cart_id == tc && r.product_id == pid)
  · rw [if_pos hany]
    obtain ⟨a, ha, hm⟩ := List.any_eq_true.mp hany
    refine List.any_eq_true.mpr ?_
    refine ⟨if a.cart_id == tc && a.product_id == pid then
      { a with attributes := attrs, quantity := q } else a, ?_, ?_⟩
    · exact List.mem_map.mpr ⟨a, ha, rfl⟩
    · rw [if_pos hm]
      simpa using (Bool.and_eq_true _ _).mp hm
  · rw [if_neg hany]
    refine List.any_eq_true.mpr ⟨⟨i, tc, pid, attrs, q, t⟩, ?_, by simp⟩
    simp

theorem filter_map_upsert (tc : String) (pid : Nat) (attrs : String) (q : Int)
    (s : String) (hne : tc ≠ s) :
    ∀ rows : List CartRow,
      (rows.map (fun r =>
        if r.cart_id == tc && r.product_id == pid then
          { r with attributes := attrs, quantity := q }
        else r)).filter (fun r => r.cart_id == s)
      = rows.filter (fun r => r.cart_id == s) := by
  intro rows
  induction rows with
  | nil => rfl
  | cons r rs ih =>
    simp only [List.map_cons, List.filter_cons]
    by_cases hm : r.cart_id == tc && r.product_id == pid
    · have h1 : r.cart_id = tc := by
        have := (Bool.and_eq_true _ _).mp hm
        simpa using this.1
      have hs : (r.cart_id == s) = false := by
        simp only [h1, beq_eq_false_iff_ne, ne_eq]
        exact hne
      rw [if_pos hm]
      have hs2 : (({ r with attributes := attrs, quantity := q } : CartRow).cart_id
          == s) = false := hs
      rw [hs2]
      simpa using ih
    · rw [if_neg hm]
      by_cases hs : r.cart_id == s
      · rw [hs]
        simpa using congrArg (List.cons r) ih
      · simp only [Bool.not_eq_true] at hs
        rw [hs]
        simpa using ih

theorem filter_upsertCart (rows : List CartRow) (tc : String) (pid : Nat)
    (attrs : String) (q : Int) (i t : Nat) (s : String) (hne : tc ≠ s) :
    (upsertCart rows tc pid attrs q i t).filter (fun r => r.cart_id == s)
      = rows.filter (fun r => r.cart_id == s) := by
  unfold upsertCart
  by_cases hany : rows.any (fun r => r.cart_id == tc && r.product_id == pid)
  · rw [if_pos hany]
    exact filter_map_upsert tc pid attrs q s hne rows
  · rw [if_neg hany]
    rw [List.filter_append]
    have : ([(⟨i, tc, pid, attrs, q, t⟩ : CartRow)].filter
        (fun r => r.cart_id == s)) = [] := by
      simp [hne]
    rw [this, List.append_nil]

theorem substr10_ne_self {s : String} (h : 10 < s.length) : substr10 s ≠ s := by
  intro heq
  have hlen : (s.data.drop 10).length = s.data.length :=
    congrArg (fun t : String => t.data.length) heq
  rw [List.length_drop] at hlen
  have h' : 10 < s.data.length := h
  omega

theorem filter_length_ne_zero_iff_any {α : Type} (p : α → Bool) (l : List α) :
    (l.filter p).length ≠ 0 ↔ l.any p = true := by
  rw [Ne, List.length_eq_zero, List.any_eq_true]
  constructor
  · intro h
    rcases hl : l.filter p with _ | ⟨a, as⟩
    · exact absurd hl h
    · have ha : a ∈ l.filter p := by rw [hl]; exact List.mem_cons_self _ _
      obtain ⟨hmem, hp⟩ := List.mem_filter.mp ha
      exact ⟨a, hmem, hp⟩
  · rintro ⟨a, hmem, hp⟩ hnil
    have : a ∈ l.filter p := List.mem_filter.mpr ⟨hmem, hp⟩
    rw [hnil] at this
    cases this

theorem any_filter_not {α : Type} (p : α → Bool) (l : List α) :
    (l.filter (fun a => !(p a))).any p = false := by
  rw [Bool.eq_false_iff, Ne, List.any_eq_true]
  rintro ⟨a, hmem, hp⟩
  obtain ⟨_, hnp⟩ := List.mem_filter.mp hmem
  rw [hp] at hnp
  cases hnp

theorem removeItemFromCart_fst (db : DB) (cid iid : Nat) (hc : cid ≠ 0) :
    (removeItemFromCart db cid iid).1
      = { db with shoppingCarts :=
            db.shoppingCarts.filter (fun r => !(r.item_id == iid)) } := by
  simp only [removeItemFromCart, if_pos hc]
  by_cases hl : (db.shoppingCarts.filter (fun r => r.item_id == iid)).length ≠ 0
  · rw [if_pos hl]
  · rw [if_neg hl]

theorem emptyCart_fst (db : DB) (cid : Nat) (s : String) (hc : cid ≠ 0) :
    (emptyCart db cid s).1
      = { db with shoppingCarts :=
            db.shoppingCarts.filter (fun r => !(r.cart_id == s)) } := by
  simp only [emptyCart, if_pos hc]
  by_cases hl : (db.shoppingCarts.filter (fun r => r.cart_id == s)).length ≠ 0
  · rw [if_pos hl]
  · rw [if_neg hl]

theorem length_eq_zero_of_any_false {α : Type} (p : α → Bool) (l : List α)
    (h : l.any p = false) : ¬ (l.filter p).length ≠ 0 := by
  intro hne
  rw [(filter_length_ne_zero_iff_any p l).mp hne] at h
  cases h

/-! ## Claim theorems -/

/-- C1: the claim says two `addItemToCart` calls with the same cart, product
and quantities 2 and 3 merge into one line of quantity 5. On the code they do
not: `ShoppingCart.upsert` REPLACES the quantity of the matched row, so the
cart holds exactly one line for the product with quantity 3, not 2 + 3 (and,
because of `cart_id.substring(10)`, it is stored under the truncated cart id
`"CART"`, with no line at all under the supplied cart id). -/
theorem claim1_upsert_replaces_quantity :
    (((addItemToCart (addItemToCart cartDB 1 "0123456789CART" 7 "" 2).1
        1 "0123456789CART" 7 "" 3).1.shoppingCarts.map
        (fun r => (r.cart_id, r.product_id, r.quantity)))
      = [("CART", 7, 3)]) ∧
    ((addItemToCart (addItemToCart cartDB 1 "0123456789CART" 7 "" 2).1
        1 "0123456789CART" 7 "" 3).1.shoppingCarts.filter
        (fun r => r.cart_id == "0123456789CART") = []) ∧
    (3 : Int) ≠ 2 + 3 := by
  refine ⟨by decide, by decide, by decide⟩

/-- C2: on the spec's own scenario (cart `"abc123"` with lines
`{product_id:1, qty:2, price:10}` and `{product_id:2, qty:1, price:5}`),
`createOrder` persists NO order-detail rows, leaves the source cart fully
intact (a subsequent `getCart` still returns both lines, not an empty
collection), and sets no `total_amount` on the inserted order row — the claim
demands two detail rows, a cleared cart and `total_amount = 25 + tax +
shipping`. -/
theorem claim2_createOrder_incomplete :
    ((createOrder checkoutDB 1 "abc123" 3 2).1.orderDetails = []) ∧
    (getCart (createOrder checkoutDB 1 "abc123" 3 2).1 1 "abc123"
      = getCart checkoutDB 1 "abc123") ∧
    ((getCart (createOrder checkoutDB 1 "abc123" 3 2).1 1 "abc123").map
        List.length = some 2) ∧
    ((createOrder checkoutDB 1 "abc123" 3 2).1.orders.map
        (fun o => o.total_amount) = [(none : Option Int)]) := by
  refine ⟨by decide, by decide, by decide, by decide⟩

/-- C3: mutating a product's `price`/`discounted_price` after `createOrder`
leaves every `getOrderSummary` result of the post-checkout state unchanged:
`getOrderSummary` reads only the `order_detail` table and the price update
writes only the `product` table. -/
theorem claim3_order_summary_price_frame (db : DB) (customerId : Nat)
    (cart_id : String) (shipping_id tax_id product_id : Nat)
    (price discounted_price : Int) (order_id : Nat) :
    getOrderSummary
        (updateProductPrice (createOrder db customerId cart_id shipping_id tax_id).1
          product_id price discounted_price) order_id
      = getOrderSummary (createOrder db customerId cart_id shipping_id tax_id).1
          order_id := rfl

/-- C4 counterexample: the claim says removing a non-existent item or emptying
an already-empty cart returns success; on the code both respond 400 (the
destroyed-row count 0 is falsy), not a success status. -/
theorem claim4_counterexample :
    (removeItemFromCart DB.empty 1 1).2 = 400 ∧
    (emptyCart DB.empty 1 "c").2 = 400 ∧ (400 : Nat) ≠ 200 := by
  refine ⟨by decide, by decide, by decide⟩

/-- C4 amended: `removeItemFromCart` (resp. `emptyCart`) responds 200 exactly
when the caller id is truthy and at least one row matched, and responds 400
otherwise — in particular a second removal of the same item (or a second
emptying of the same cart) responds 400. The deletion of rows itself is
idempotent, but the reported status is not a success on the second call. -/
theorem claim4_deletion_status (db : DB) (customerId item_id : Nat)
    (cart_id : String) :
    ((removeItemFromCart db customerId item_id).2 = 200 ↔
      customerId ≠ 0 ∧
        db.shoppingCarts.any (fun r => r.item_id == item_id) = true) ∧
    ((removeItemFromCart db customerId item_id).2 = 200 ∨
      (removeItemFromCart db customerId item_id).2 = 400) ∧
    ((emptyCart db customerId cart_id).2 = 200 ↔
      customerId ≠ 0 ∧
        db.shoppingCarts.any (fun r => r.cart_id == cart_id) = true) ∧
    ((emptyCart db customerId cart_id).2 = 200 ∨
      (emptyCart db customerId cart_id).2 = 400) ∧
    (customerId = 0 ∨
      (removeItemFromCart (removeItemFromCart db customerId item_id).1
        customerId item_id).2 = 400) ∧
    (customerId = 0 ∨
      (emptyCart (emptyCart db customerId cart_id).1 customerId cart_id).2
        = 400) := by
  by_cases hc : customerId = 0
  · subst hc
    simp [removeItemFromCart, emptyCart]
  · refine ⟨?_, ?_, ?_, ?_, ?_, ?_⟩
    · simp only [removeItemFromCart, if_pos hc]
      by_cases hl :
          (db.shoppingCarts.filter (fun r => r.item_id == item_id)).length ≠ 0
      · rw [if_pos hl]
        simp [hc, (filter_length_ne_zero_iff_any _ _).mp hl]
      · rw [if_neg hl]
        have hany : db.shoppingCarts.any (fun r => r.item_id == item_id) = false := by
          rw [Bool.eq_false_iff]
          exact fun h => hl ((filter_length_ne_zero_iff_any _ _).mpr h)
        simp [hany]
    · simp only [removeItemFromCart, if_pos hc]
      by_cases hl :
          (db.shoppingCarts.filter (fun r => r.item_id == item_id)).length ≠ 0
      · rw [if_pos hl]; left; rfl
      · rw [if_neg hl]; right; rfl
    · simp only [emptyCart, if_pos hc]
      by_cases hl :
          (db.shoppingCarts.filter (fun r => r.cart_id == cart_id)).length ≠ 0
      · rw [if_pos hl]
        simp [hc, (filter_length_ne_zero_iff_any _ _).mp hl]
      · rw [if_neg hl]
        have hany : db.shoppingCarts.any (fun r => r.cart_id == cart_id) = false := by
          rw [Bool.eq_false_iff]
          exact fun h => hl ((filter_length_ne_zero_iff_any _ _).mpr h)
        simp [hany]
    · simp only [emptyCart, if_pos hc]
      by_cases hl :
          (db.shoppingCarts.filter (fun r => r.cart_id == cart_id)).length ≠ 0
      · rw [if_pos hl]; left; rfl
      · rw [if_neg hl]; right; rfl
    · refine Or.inr ?_
      rw [removeItemFromCart_fst db customerId item_id hc]
      have h0 := length_eq_zero_of_any_false (fun r => r.item_id == item_id)
        (db.shoppingCarts.filter (fun r => !(r.item_id == item_id)))
        (any_filter_not _ _)
      simp only [removeItemFromCart, if_pos hc]
      rw [if_neg h0]
    · refine Or.inr ?_
      rw [emptyCart_fst db customerId cart_id hc]
      have h0 := length_eq_zero_of_any_false (fun r => r.cart_id == cart_id)
        (db.shoppingCarts.filter (fun r => !(r.cart_id == cart_id)))
        (any_filter_not _ _)
      simp only [emptyCart, if_pos hc]
      rw [if_neg h0]

/-- C5: for an authenticated call, `addItemToCart` (i) persists the upserted
line under `cart_id.substring(10)` (some row carries the truncated id and the
product, and every row it writes or rewrites carries the truncated id),
(ii) when the supplied `cart_id` is longer than 10 characters, a subsequent
`getCart` with the original `cart_id` is completely unaffected by the add —
in particular it does not return the item just added — and (iii) the line
returned to the caller is a stored row for that `product_id` with the maximal
`added_on` across ALL carts, not necessarily the row just written. -/
theorem claim5_addItemToCart_truncates (db : DB) (customerId : Nat)
    (cart_id : String) (product_id : Nat) (attributes : String) (quantity : Int)
    (hcid : customerId ≠ 0) (hlen : 10 < cart_id.length) :
    ((addItemToCart db customerId cart_id product_id attributes quantity).1.shoppingCarts.any
        (fun r => r.cart_id == substr10 cart_id && r.product_id == product_id)
      = true) ∧
    (∀ r ∈ (addItemToCart db customerId cart_id product_id attributes
        quantity).1.shoppingCarts,
      r ∈ db.shoppingCarts ∨ r.cart_id = substr10 cart_id) ∧
    (∀ cid2, getCart
        (addItemToCart db customerId cart_id product_id attributes quantity).1
        cid2 cart_id
      = getCart db cid2 cart_id) ∧
    (∀ b, (addItemToCart db customerId cart_id product_id attributes quantity).2
        = some b →
      b ∈ (addItemToCart db customerId cart_id product_id attributes
        quantity).1.shoppingCarts ∧
      b.product_id = product_id ∧
      ∀ r ∈ (addItemToCart db customerId cart_id product_id attributes
          quantity).1.shoppingCarts,
        r.product_id = product_id → r.added_on ≤ b.added_on) := by
  have hne : substr10 cart_id ≠ cart_id := substr10_ne_self hlen
  simp only [addItemToCart, if_pos hcid]
  refine ⟨?_, ?_, ?_, ?_⟩
  · exact upsertCart_writes db.shoppingCarts (substr10 cart_id) product_id
      attributes quantity (freshItemId db.shoppingCarts) (freshTime db.shoppingCarts)
  · intro r hr
    exact mem_upsertCart hr
  · intro cid2
    simp only [getCart]
    by_cases h2 : cid2 ≠ 0
    · rw [if_pos h2, if_pos h2]
      rw [filter_upsertCart db.shoppingCarts (substr10 cart_id) product_id
        attributes quantity (freshItemId db.shoppingCarts)
        (freshTime db.shoppingCarts) cart_id hne]
    · rw [if_neg h2, if_neg h2]
  · intro b hb
    exact latestByProduct_spec product_id _ b hb

/-- C5 witness: the theorem instantiated on the one-product database with
caller 1, cart id `"0123456789ZZ"` (length 12), product 7 and quantity 2. -/
theorem claim5_witness :
    (1 : Nat) ≠ 0 ∧ 10 < ("0123456789ZZ" : String).length ∧
    (((addItemToCart cartDB 1 "0123456789ZZ" 7 "" 2).1.shoppingCarts.any
        (fun r => r.cart_id == substr10 "0123456789ZZ" && r.product_id == 7)
      = true) ∧
    (∀ r ∈ (addItemToCart cartDB 1 "0123456789ZZ" 7 "" 2).1.shoppingCarts,
      r ∈ cartDB.shoppingCarts ∨ r.cart_id = substr10 "0123456789ZZ") ∧
    (∀ cid2, getCart (addItemToCart cartDB 1 "0123456789ZZ" 7 "" 2).1
        cid2 "0123456789ZZ"
      = getCart cartDB cid2 "0123456789ZZ") ∧
    (∀ b, (addItemToCart cartDB 1 "0123456789ZZ" 7 "" 2).2 = some b →
      b ∈ (addItemToCart cartDB 1 "0123456789ZZ" 7 "" 2).1.shoppingCarts ∧
      b.product_id = 7 ∧
      ∀ r ∈ (addItemToCart cartDB 1 "0123456789ZZ" 7 "" 2).1.shoppingCarts,
        r.product_id = 7 → r.added_on ≤ b.added_on)) :=
  ⟨by decide, by decide,
    claim5_addItemToCart_truncates cartDB 1 "0123456789ZZ" 7 "" 2
      (by decide) (by decide)⟩

/-- C6 counterexample: the claim says every paginated catalog query clamps
`page < 1` to 1 and defaults an omitted `limit` to 20 before computing the
offset; but `getProductsByCategory` and `getProductsByDepartment` compute the
offset from the raw parameters first, so `page=0, limit=20` yields offset
`-20` (the claim demands `(1-1)*20 = 0`) and an omitted `limit` yields a NaN
offset. -/
theorem claim6_counterexample :
    (getProductsByCategoryQueryMap (some 0) (some 20)).1 = some (-20) ∧
    (getProductsByDepartmentQueryMap (some 0) (some 20)).1 = some (-20) ∧
    (some (-20) : Option Int) ≠ some ((1 - 1) * 20) ∧
    (getProductsByCategoryQueryMap (some 2) none).1 = none := by
  refine ⟨by decide, by decide, by decide, by decide⟩

/-- C6 amended: `getAllProducts` and `searchProduct` clamp absent/`< 1` pages
to 1, default an omitted `limit` to 20 and use offset `(page-1)*limit`;
`getProductsByCategory` and `getProductsByDepartment` instead compute the
offset from the raw parameters before the clamp and default, giving
`page*limit - limit` for supplied parameters (negative for `page = 0`) and a
NaN offset when either parameter is omitted. -/
theorem claim6_pagination (p l : Int) :
    getAllProductsQueryMap (some p) (some l)
      = (some ((clampedPage (some p) - 1) * l), l) ∧
    getAllProductsQueryMap none none = (some 0, 20) ∧
    getAllProductsQueryMap (some p) none
      = (some ((clampedPage (some p) - 1) * 20), 20) ∧
    searchProductQueryMap (some p) (some l)
      = getAllProductsQueryMap (some p) (some l) ∧
    searchProductQueryMap none none = (some 0, 20) ∧
    getProductsByCategoryQueryMap (some p) (some l) = (some (p * l - l), l) ∧
    (getProductsByCategoryQueryMap (some p) none).1 = none ∧
    (getProductsByCategoryQueryMap none (some l)).1 = none ∧
    getProductsByDepartmentQueryMap (some p) (some l) = (some (p * l - l), l) ∧
    (getProductsByDepartmentQueryMap (some p) none).1 = none := by
  refine ⟨?_, by decide, ?_, rfl, by decide, rfl, rfl, rfl, rfl, rfl⟩
  · simp [getAllProductsQueryMap, orDefaultLimit, sub_mul, one_mul]
  · simp [getAllProductsQueryMap, orDefaultLimit, sub_mul, one_mul]

/-- C7 counterexample: in "match all terms" mode (`all_words` not `'off'`) the
claim says exactly the products whose name contains EVERY term are returned;
but the code matches the WHOLE query string contiguously: the product named
`"shirt red"` contains both terms of `"red shirt"` yet the search returns
nothing. -/
theorem claim7_counterexample :
    searchProduct searchDB "on" "red shirt" none none = [] ∧
    ((splitTerms "red shirt").all (fun t => containsSub "shirt red" t)) = true ∧
    searchDB.products.map (fun p => p.name) = ["shirt red"] := by
  refine ⟨by decide, by decide, by decide⟩

/-- C7 amended: with `all_words = 'off'` the query string is split on
whitespace/commas and a product matches when its name contains AT LEAST ONE
term (as the claim says); with any other flag value a product matches exactly
when its name contains the whole query string as a contiguous substring (not
term-by-term). The response is that filtered list sliced by the pagination
query map. -/
theorem claim7_search_modes (db : DB) (all_words query_string : String)
    (pr : ProductRow) (page limit : Option Int) :
    (pr ∈ searchMatches db all_words query_string ↔ pr ∈ db.products ∧
        (if all_words = "off" then
            (splitTerms query_string).any (fun t => containsSub pr.name t)
          else containsSub pr.name query_string) = true) ∧
    searchProduct db all_words query_string page limit
      = ((searchMatches db all_words query_string).drop
          ((searchProductQueryMap page limit).1.getD 0).toNat).take
        (searchProductQueryMap page limit).2.toNat := by
  constructor
  · by_cases h : all_words = "off" <;>
      simp [searchMatches, h, List.mem_filter]
  · rfl

/-- C8: registering with a fresh email responds 201 and with a duplicate email
responds 409 without a second row (as the claim says), but the persisted
`password` field holds the PLAINTEXT password, not `hash(password)`: the
digest `bcrypt.hashSync` computes is never used. -/
theorem claim8_register_stores_plaintext :
    (createCustomer DB.empty "Alice" "a@x.com" "pw").2 = 201 ∧
    ((createCustomer DB.empty "Alice" "a@x.com" "pw").1.customers.map
        (fun c => c.password)) = ["pw"] ∧
    ("pw" : String) ≠ bcryptHash "pw" ∧
    (createCustomer (createCustomer DB.empty "Alice" "a@x.com" "pw").1
        "Bob" "a@x.com" "pw2").2 = 409 ∧
    (createCustomer (createCustomer DB.empty "Alice" "a@x.com" "pw").1
        "Bob" "a@x.com" "pw2").1.customers.length = 1 := by
  refine ⟨by decide, by decide, by decide, by decide, by decide⟩

/-- C9 counterexample: the claim says a wrong password and an unknown email
both fail with the SAME status 401 and message; on the code a wrong password
yields `401 'Incorrect password'` while an unknown email yields
`404 'User does not exist'` — distinguishable responses. -/
theorem claim9_counterexample :
    login loginDB "a@x.com" "wrong" = (401, "Incorrect password") ∧
    login loginDB "b@x.com" "pw" = (404, "User does not exist") ∧
    ((401, "Incorrect password") : Nat × String)
      ≠ (404, "User does not exist") := by
  refine ⟨by decide, by decide, by decide⟩

/-- C9 amended: a wrong password for a registered email fails with
`401 'Incorrect password'`, while an email with no registered customer fails
with `404 'User does not exist'`; the two failure cases are therefore
distinguishable to the caller. -/
theorem claim9_login_failures (db : DB) (email password : String) :
    (db.customers.find? (fun c => c.email == email) = none →
      login db email password = (404, "User does not exist")) ∧
    (∀ c, db.customers.find? (fun c2 => c2.email == email) = some c →
      bcryptCompare password c.password = false →
      login db email password = (401, "Incorrect password")) := by
  constructor
  · intro h
    simp [login, h]
  · intro c hc hcmp
    simp [login, hc, hcmp]

/-- C9 witness: the amended theorem applied to the one-customer database, once
with an unregistered email and once with a wrong password. -/
theorem claim9_witness :
    login loginDB "b@x.com" "pw" = (404, "User does not exist") ∧
    login loginDB "a@x.com" "wrong" = (401, "Incorrect password") :=
  ⟨(claim9_login_failures loginDB "b@x.com" "pw").1 (by decide),
   (claim9_login_failures loginDB "a@x.com" "wrong").2
     ⟨1, "A", "a@x.com", bcryptHash "secret"⟩ (by decide) (by decide)⟩

/-- C10: the claim says reviews are unique per `(customer_id, product_id)`
and are recorded under the authenticated customer; but the code hardcodes
`customer_id: 1` in both the duplicate check and the insert: customer 2's
FIRST review of product 7 is rejected with 409 because customer 1 reviewed it
(even though no review by customer 2 exists), and when no review by customer 1
exists, customer 2's review is recorded under customer id 1. -/
theorem claim10_review_hardcodes_customer :
    (postProductReview reviewedDB 2 7 "nice" 4 99).2 = 409 ∧
    (reviewedDB.reviews.all (fun r => !(r.customer_id == 2))) = true ∧
    ((postProductReview cartDB 2 7 "nice" 4 99).1.reviews.map
        (fun r => r.customer_id)) = [1] := by
  refine ⟨by decide, by decide, by decide⟩

end Ecommerce
